import Mathlib

/-!
Verification of the vpn-watchdog detection/aggregation core.

Shallow embedding of the Python sources:
  src/core.py       (VPNChecker.check_status routing evaluation and aggregation)
  src/public_ip.py  (PublicIPChecker: is_entry_safe strategies, has_valid_data,
                     run_check_async trigger guard)
  src/dns_leak.py   (DnsLeakChecker: _perform_check analysis and error path,
                     run_check_async trigger guard)
  src/providers.py  (SmartProvider.fetch_details cache reuse and geo fallback walk)
  src/main.py       (Application.open_settings call site of checker.force_checks)

Python strings are modelled as Lean String, Python None-able values as Option,
Python dicts of fixed shape as structures.  External I/O (HTTP responses, OS
route lookups, DNS resolution results) is passed in as explicit parameters:
each embedded function is the pure computation the Python code performs on the
data those calls return.
-/

/-- Python `s.lower()` (ASCII case folding; every string compared by the
program is ASCII). -/
def pyLower (s : String) : String := ⟨s.data.map Char.toLower⟩

/-- Python `s.upper()` (ASCII case folding). -/
def pyUpper (s : String) : String := ⟨s.data.map Char.toUpper⟩

/-- Python `s.strip()`: remove leading and trailing whitespace. -/
def pyStrip (s : String) : String :=
  ⟨((s.data.dropWhile Char.isWhitespace).reverse.dropWhile Char.isWhitespace).reverse⟩

/-- Python `", ".join(parts)`-style joining. -/
def pyJoin (sep : String) : List String → String
  | [] => ""
  | [x] => x
  | x :: xs => x ++ sep ++ pyJoin sep xs

/-- `listStarts l p` : `p` is a prefix of the character list `l`. -/
def listStarts : List Char → List Char → Bool
  | _, [] => true
  | [], _ :: _ => false
  | a :: as, b :: bs => a == b && listStarts as bs

/-- `listContains l p` : `p` occurs as a contiguous sublist of `l`. -/
def listContains : List Char → List Char → Bool
  | [], needle => listStarts [] needle
  | h :: t, needle => listStarts (h :: t) needle || listContains t needle

/-- Python `needle in hay` for strings (substring test; `"" in s` is `True`). -/
def pyIn (needle hay : String) : Bool := listContains hay.data needle.data

/-- Truthiness of a Python value that is either `None` or a `str`:
`None` and `""` are falsy, every other string is truthy. -/
def pyTruthyStr : Option String → Bool
  | none => false
  | some s => !(s == "")

/-- Python `x is False` for a value that is `None`, `True` or `False`
(`None` is not `False`). -/
def pyIsFalse : Option Bool → Bool
  | some false => true
  | _ => false

/-- Python f-string rendering of a `None`-or-`str` value (`None` prints as
`"None"`). -/
def pyShowOpt : Option String → String
  | none => "None"
  | some s => s

/-! ## Routing evaluation — src/core.py, check_status lines 161-193 -/

/-- The two values the Python local variable `local_secure` can take inside
`check_status`.  Line 162 reads `local_secure = None,` — the trailing comma
makes it the 1-tuple `(None,)`, which is truthy and is not `False`; the only
other assignment is `local_secure = False`.  `initTuple` embeds `(None,)` and
`falseVal` embeds `False`. -/
inductive RoutingSecure where
  | initTuple
  | falseVal
deriving DecidableEq, Repr

/-- Python truthiness of `local_secure`: the 1-tuple `(None,)` is truthy,
`False` is falsy. -/
def RoutingSecure.truthy : RoutingSecure → Bool
  | .initTuple => true
  | .falseVal => false

/-- Python `local_secure is False`. -/
def RoutingSecure.isFalse : RoutingSecure → Bool
  | .initTuple => false
  | .falseVal => true

/-- A discovered route: `(interface display name, "IPv4" | "IPv6")`, as
produced by `_get_active_routes_precision` / `_get_active_routes_performance`
(src/core.py lines 108-152). -/
abbrev Route := String × String

/-- The f-string `f"{iface} ({proto})"` used for route display entries
(src/core.py lines 184, 188). -/
def routeLabel (r : Route) : String := r.1 ++ " (" ++ r.2 ++ ")"

/-- The membership test of src/core.py line 186:
`any(a.strip().lower() == iface.strip().lower() for a in allowed_interfaces)`. -/
def allowedMatch (allowed_interfaces : List String) (iface : String) : Bool :=
  allowed_interfaces.any fun a => pyLower (pyStrip a) == pyLower (pyStrip iface)

/-- The `for iface, proto in routes` loop of src/core.py lines 183-188, with
accumulator `(local_secure, local_details, active_routes_str)`.  Note the loop
body has no `break`: a later mismatch overwrites the `"Leak: ..."` detail of an
earlier one. -/
def routingLoop (allowed_interfaces : List String) :
    List Route → RoutingSecure × String × List String →
    RoutingSecure × String × List String
  | [], st => st
  | r :: rest, (sec, det, acc) =>
      let acc' := acc ++ [routeLabel r]
      if allowedMatch allowed_interfaces r.1 then
        routingLoop allowed_interfaces rest (sec, det, acc')
      else
        routingLoop allowed_interfaces rest
          (.falseVal, "Leak: " ++ routeLabel r, acc')

/-- The routing portion of `check_status` (src/core.py lines 161-193):
given the `routing_check_enabled` flag, the configured allow-list
`valid_interfaces` and the routes the selected detection strategy discovered,
compute `(local_secure, local_details)`.  The final conditional embeds line
190: `if local_secure and active_routes_str: local_details = ", ".join(...)`. -/
def routing_eval (rt_en : Bool) (allowed_interfaces : List String)
    (routes : List Route) : RoutingSecure × String :=
  if rt_en then
    let st :=
      if allowed_interfaces.isEmpty then
        (RoutingSecure.falseVal, "Not Configured", ([] : List String))
      else if routes.isEmpty then
        (RoutingSecure.falseVal, "No Network", ([] : List String))
      else
        routingLoop allowed_interfaces routes (.initTuple, "OK", [])
    if st.1.truthy && !st.2.2.isEmpty then (st.1, pyJoin ", " st.2.2)
    else (st.1, st.2.1)
  else (.initTuple, "Disabled")

/-! ## Public identity entries — src/public_ip.py -/

/-- One protocol entry of `PublicIPChecker.last_result`
(src/public_ip.py lines 14-16): `{"ip", "country", "isp", "error"}`.
Fields are `Option` because the Python values can be `None`. -/
structure IpEntry where
  ip : Option String := none
  country : Option String := some "??"
  isp : Option String := some "Unknown"
  error : Option String := none
deriving DecidableEq, Repr

/-- The freshly initialized per-protocol entry
`{"ip": None, "country": "??", "isp": "Unknown", "error": None}`. -/
def IpEntry.init : IpEntry :=
  { ip := none, country := some "??", isp := some "Unknown", error := none }

/-- `PublicIPChecker.has_valid_data` (src/public_ip.py lines 30-44): true once
at least one protocol entry carries an IP or an error. -/
def has_valid_data (ipv4 ipv6 : IpEntry) : Bool :=
  (ipv4.ip.isSome || ipv4.error.isSome) || (ipv6.ip.isSome || ipv6.error.isSome)

/-- `is_entry_safe` (src/public_ip.py lines 162-211), the per-protocol leak
strategy evaluation.  `strategy` is the configured strategy string;
`target_country` and `home_isp` are the already-normalized values computed at
lines 130-131 (`cfg.get("target_country").upper().strip()` and
`cfg.get("home_isp").lower().strip()`); `home_ip_v4` / `home_ip_v6` are the
DynDNS resolution results of lines 139-160 (`none` when resolution failed or
was not attempted — the bare `except: pass` swallows every resolver error). -/
def is_entry_safe (strategy : String) (target_country home_isp : String)
    (home_ip_v4 home_ip_v6 : Option String) (entry : IpEntry) : Bool :=
  if !pyTruthyStr entry.ip then true
  else
    if strategy == "country" then
      !(!(target_country == "") && pyTruthyStr entry.country &&
        (pyUpper ((entry.country).getD "") == target_country))
    else if strategy == "isp" then
      !(!(home_isp == "") && pyTruthyStr entry.isp &&
        pyIn home_isp (pyLower ((entry.isp).getD "")))
    else if strategy == "combined" then
      let c_match := !(target_country == "") && pyTruthyStr entry.country &&
        (pyUpper ((entry.country).getD "") == target_country)
      let i_match := !(home_isp == "") && pyTruthyStr entry.isp &&
        pyIn home_isp (pyLower ((entry.isp).getD ""))
      !(c_match && i_match)
    else if strategy == "ip_match" then
      !((pyTruthyStr home_ip_v4 && entry.ip == home_ip_v4) ||
        (pyTruthyStr home_ip_v6 && entry.ip == home_ip_v6))
    else true

/-- `is_entry_safe` applied to raw configuration strings, performing the
normalization of src/public_ip.py lines 130-131. -/
def eval_entry (strategy raw_country raw_isp : String)
    (home_ip_v4 home_ip_v6 : Option String) (entry : IpEntry) : Bool :=
  is_entry_safe strategy (pyStrip (pyUpper raw_country))
    (pyStrip (pyLower raw_isp)) home_ip_v4 home_ip_v6 entry

/-! ## DNS leak checker — src/dns_leak.py -/

/-- One detected DNS server record (src/dns_leak.py lines 64-68):
`{"ip": entry.get("ip"), "country": entry.get("country_name"),
"asn": entry.get("asn", "Unknown")}`. -/
structure DnsServer where
  ip : Option String := none
  country : Option String := none
  asn : String := "Unknown"
deriving DecidableEq, Repr

/-- `DnsLeakChecker.last_result` (src/dns_leak.py lines 16-21). -/
structure DnsState where
  servers : List DnsServer
  count : Nat
  is_secure : Option Bool
  error : Option String
deriving DecidableEq, Repr

/-- The initial `last_result`:
`{"servers": [], "count": 0, "is_secure": None, "error": None}`. -/
def DnsState.init : DnsState :=
  { servers := [], count := 0, is_secure := none, error := none }

/-- Configuration read by the DNS analysis (src/dns_leak.py lines 73-74). -/
structure DnsCfg where
  dns_alert_on_home_isp : Bool
  home_isp : String
deriving DecidableEq, Repr

/-- The security analysis of src/dns_leak.py lines 72-90.  `home_isp` is the
already-normalized `cfg.get("home_isp").lower().strip()`.  `is_safe` starts
`True`; when the alert is enabled but no home ISP is configured it stays
`True`; otherwise the loop flips it to `False` whenever some server's
ASN/organization string contains the home-ISP substring. -/
def dns_analyze (alert_on_home : Bool) (home_isp : String)
    (detected_servers : List DnsServer) : Bool :=
  if alert_on_home && home_isp == "" then true
  else if alert_on_home && !(home_isp == "") then
    !(detected_servers.any fun srv => pyIn home_isp (pyLower srv.asn))
  else true

/-- Outcome of one DNS leak test run: either some step of steps 1-3 (fetching
the leak ID, resolving the probe subdomains, fetching and parsing the report)
raised an exception with the given text, or the run completed and parsed the
given server list. -/
inductive DnsRunOutcome where
  | failure (msg : String)
  | completed (servers : List DnsServer)
deriving DecidableEq, Repr

/-- `DnsLeakChecker._perform_check` (src/dns_leak.py lines 33-108) as a state
transformer on `last_result`.  On the exception path (lines 103-106) only the
`error` field is assigned; on completion (lines 92-96) `servers`, `count`,
`is_secure` and `error` are all replaced. -/
def DnsLeakChecker.perform_check (cfg : DnsCfg) (st : DnsState) :
    DnsRunOutcome → DnsState
  | .failure msg => { st with error := some msg }
  | .completed servers =>
      { servers := servers
        count := servers.length
        is_secure := some (dns_analyze cfg.dns_alert_on_home_isp
          (pyStrip (pyLower cfg.home_isp)) servers)
        error := none }

/-! ## Orchestrator tick — src/core.py, check_status lines 155-328

The async trigger blocks (lines 195-219) only schedule background work and
update `last_public_check` / `last_dns_check`; the published state of a tick
depends on the sub-checkers' snapshots, modelled here as inputs.  Line 240
reads `self.dns_checker.has_valid_data()`, but `DnsLeakChecker` defines no
such method (its full method set is `DnsLeakChecker.methods` below), so
whenever that line is reached with `dns_check_enabled` truthy the tick raises
`AttributeError` instead of publishing a state; the embedding returns
`Except.error` there. -/

/-- The snapshot returned by `PublicIPChecker.get_state`
(src/public_ip.py lines 14-19, 23-28). -/
structure PublicState where
  ipv4 : IpEntry
  ipv6 : IpEntry
  is_secure : Option Bool
deriving DecidableEq, Repr

/-- The inputs one `check_status` tick consumes: configuration flags, the
allow-list, the routes discovered by the selected detection strategy, and the
two sub-checkers' snapshots. -/
structure CoreInputs where
  routing_check_enabled : Bool
  valid_interfaces : List String
  routes : List Route
  public_check_enabled : Bool
  p_state : PublicState
  dns_check_enabled : Bool
  d_is_secure : Option Bool
deriving DecidableEq, Repr

/-- The fields of `current_state` published at src/core.py lines 306-326. -/
structure CheckState where
  status : String
  global_secure : Bool
  summary_details : String
  country : Option String
  routing_enabled : Bool
  routing_secure : RoutingSecure
  routing_details : String
  public_enabled : Bool
  public_secure : Option Bool
  dns_enabled : Bool
  dns_secure : Option Bool
deriving DecidableEq, Repr

/-- The methods `class DnsLeakChecker` defines (src/dns_leak.py):
note the absence of `has_valid_data`. -/
def DnsLeakChecker.methods : List String :=
  ["__init__", "get_state", "run_check_async", "_perform_check"]

/-- The methods `class VPNChecker` defines (src/core.py lines 13-332):
note the absence of `force_checks`. -/
def VPNChecker.methods : List String :=
  ["__init__", "_run_command", "_refresh_windows_guid_map", "_resolve_name",
   "get_all_interfaces", "_get_active_routes_precision",
   "_get_active_routes_performance", "check_status", "get_dashboard_data"]

/-- Python attribute lookup + call on an object whose class defines exactly
`methods`: a missing name raises `AttributeError`. -/
def py_getattr_call (methods : List String) (name : String) : Except String Unit :=
  if methods.contains name then Except.ok ()
  else Except.error ("AttributeError: " ++ name)

/-- `VPNChecker.check_status` (src/core.py lines 155-328) minus the
fire-and-forget trigger bookkeeping.  Returns `Except.error` when the tick
raises: line 240 (`self.dns_checker.has_valid_data()`) is reached exactly when
`is_globally_secure` holds and `dns_check_enabled` is truthy, and the
attribute lookup fails because `DnsLeakChecker` has no `has_valid_data`. -/
def check_status (i : CoreInputs) : Except String CheckState :=
  let ls := routing_eval i.routing_check_enabled i.valid_interfaces i.routes
  let public_secure := i.p_state.is_secure
  -- main country for the icon (lines 208-210): prefer v4, else v6
  let mc0 := i.p_state.ipv4.country
  let main_country :=
    if !pyTruthyStr mc0 || mc0 == some "??" then i.p_state.ipv6.country else mc0
  let dns_secure := i.d_is_secure
  -- A. fail-fast aggregation (lines 228-232); a disabled or pending (None)
  -- check never flips it
  let is_globally_secure :=
    !((i.routing_check_enabled && ls.1.isFalse) ||
      (i.public_check_enabled && pyIsFalse public_secure) ||
      (i.dns_check_enabled && pyIsFalse dns_secure))
  -- B. pending initialization (lines 236-241); line 240 raises AttributeError
  if is_globally_secure && i.dns_check_enabled &&
      !(DnsLeakChecker.methods.contains "has_valid_data") then
    Except.error "AttributeError: 'DnsLeakChecker' object has no attribute 'has_valid_data'"
  else
    let init_pending := is_globally_secure &&
      (i.public_check_enabled &&
        !(has_valid_data i.p_state.ipv4 i.p_state.ipv6))
    -- C. display status (lines 244-251)
    let effective_status :=
      if !is_globally_secure then "unsafe"
      else if init_pending then "scanning"
      else "safe"
    -- D. force safe when nothing is enabled (lines 254-256)
    let nothing_enabled :=
      !(i.routing_check_enabled || i.public_check_enabled || i.dns_check_enabled)
    let gs := if nothing_enabled then true else is_globally_secure
    let es := if nothing_enabled then "safe" else effective_status
    Except.ok
      { status := es
        global_secure := gs
        summary_details := ls.2
        country := main_country
        routing_enabled := i.routing_check_enabled
        routing_secure := ls.1
        routing_details := ls.2
        public_enabled := i.public_check_enabled
        public_secure := public_secure
        dns_enabled := i.dns_check_enabled
        dns_secure := dns_secure }

/-! ## Providers — src/providers.py, SmartProvider.fetch_details lines 219-281 -/

/-- The result dict every provider's `fetch_details` returns
(src/providers.py lines 24-26).  Failure dicts carry only
`{"success": False, "error": ...}`; their missing keys read as `None`. -/
structure FetchResult where
  success : Bool
  ip : Option String := none
  country : Option String := none
  isp : Option String := none
  error : Option String := none
deriving DecidableEq, Repr

/-- The fallback walk of src/providers.py lines 254-281: try each geolocation
service in order (FreeIPAPI, ipapi.co, ip-api.com), return the first success
unchanged; remember the latest failure's `error` in `last_error` (initialized
`"No providers available"`); when all fail, return the partial success built
at lines 275-281.  The second component counts how many services were
consulted. -/
def smartGeoWalk : List FetchResult → Option String → Nat → Option String →
    FetchResult × Nat
  | [], last_error, n, detected_ip =>
      ({ success := true
         ip := detected_ip
         country := some "??"
         isp := some "Unknown (Geo Lookup Failed)"
         error := some ("Geo Failed: " ++ pyShowOpt last_error) }, n)
  | r :: rest, last_error, n, detected_ip =>
      if r.success then (r, n + 1)
      else
        -- `last_error` shadows the previous value with this failure's error
        have _ := last_error
        smartGeoWalk rest r.error (n + 1) detected_ip

/-- `SmartProvider.fetch_details` (src/providers.py lines 219-281).
`ip_result` is what the inner `IpifyProvider` call returned; `cached_ip` and
`cached_details` are the caller-supplied snapshot (both default to `None` in
Python); `geo_results` are the responses the three geolocation services would
give, in fallback order.  Returns the result dict together with the number of
geolocation services consulted. -/
def SmartProvider.fetch_details (ip_result : FetchResult)
    (cached_ip : Option String) (cached_details : Option IpEntry)
    (geo_results : List FetchResult) : FetchResult × Nat :=
  if !ip_result.success then (ip_result, 0)
  else
    let detected_ip := ip_result.ip
    match cached_details with
    | some cd =>
        -- lines 239-249: unchanged IP with an error-free snapshot reuses the
        -- cached geo fields and consults no geolocation service
        if pyTruthyStr cached_ip && detected_ip == cached_ip &&
            !pyTruthyStr cd.error then
          ({ success := true
             ip := detected_ip
             country := cd.country
             isp := cd.isp
             error := none }, 0)
        else smartGeoWalk geo_results (some "No providers available") 0 detected_ip
    | none => smartGeoWalk geo_results (some "No providers available") 0 detected_ip

/-! ## Async trigger guard — src/public_ip.py lines 46-55/236 and
src/dns_leak.py lines 28-34/108

Both checkers share the identical pattern: `run_check_async` reads
`self.is_checking` and returns when set, otherwise spawns a thread; the
spawned `_perform_check`'s first statement sets `is_checking = True` and its
last statement resets it.  The three atomic events are a trigger, a spawned
thread's first statement, and a check's final statement; a schedule is any
interleaving of them. -/

/-- Observable state of one async checker: the `is_checking` flag, the number
of spawned threads that have not yet executed `is_checking = True`, and the
total number of check executions started. -/
structure AsyncCheckerState where
  is_checking : Bool
  spawned : Nat
  executions : Nat
deriving DecidableEq, Repr

/-- The atomic events of the trigger/flag protocol. -/
inductive AsyncEvent where
  | trigger
  | thread_begin
  | thread_end
deriving DecidableEq, Repr

/-- One atomic step.  `trigger` embeds `run_check_async`: if `is_checking` is
set it returns without spawning, else `t.start()` commits one more execution.
`thread_begin` embeds the spawned check's first statement
(`self.is_checking = True`); `thread_end` embeds its last
(`self.is_checking = False`). -/
def run_check_async_step (s : AsyncCheckerState) : AsyncEvent → AsyncCheckerState
  | .trigger =>
      if s.is_checking then s
      else { s with spawned := s.spawned + 1, executions := s.executions + 1 }
  | .thread_begin =>
      if s.spawned > 0 then
        { s with is_checking := true, spawned := s.spawned - 1 }
      else s
  | .thread_end => { s with is_checking := false }

/-- The idle initial state of a checker (`is_checking = False`, nothing
spawned, nothing executed). -/
def asyncIdle : AsyncCheckerState := ⟨false, 0, 0⟩

/-- Run a schedule of atomic events from the idle state. -/
def runSchedule (evs : List AsyncEvent) : AsyncCheckerState :=
  evs.foldl run_check_async_step asyncIdle

/-! ## Theorems -/

/-- When every route matches the allow-list, the loop of src/core.py lines
183-188 leaves `(local_secure, local_details)` unchanged and appends every
route's label to `active_routes_str`. -/
theorem routingLoop_all_match (allowed : List String) (routes : List Route)
    (h : ∀ r ∈ routes, allowedMatch allowed r.1 = true) :
    ∀ sec det acc, routingLoop allowed routes (sec, det, acc) =
      (sec, det, acc ++ routes.map routeLabel) := by
  induction routes with
  | nil => intro sec det acc; simp [routingLoop]
  | cons r rest ih =>
    intro sec det acc
    have hr : allowedMatch allowed r.1 = true := h r (List.mem_cons_self _ _)
    have ih' := ih (fun x hx => h x (List.mem_cons_of_mem _ hx))
    simp [routingLoop, hr, ih']

/-- The loop distributes over list append. -/
theorem routingLoop_append (allowed : List String) (xs ys : List Route) :
    ∀ st, routingLoop allowed (xs ++ ys) st =
      routingLoop allowed ys (routingLoop allowed xs st) := by
  induction xs with
  | nil => intro st; rfl
  | cons r rest ih =>
    rintro ⟨sec, det, acc⟩
    by_cases hm : allowedMatch allowed r.1
    · simp [routingLoop, hm, ih]
    · simp [routingLoop, hm, ih]

/-- Whatever the routes, the loop ends with `active_routes_str` extended by
exactly the labels of the processed routes. -/
theorem routingLoop_shape (allowed : List String) (routes : List Route) :
    ∀ sec det acc, ∃ sec' det',
      routingLoop allowed routes (sec, det, acc) =
        (sec', det', acc ++ routes.map routeLabel) := by
  induction routes with
  | nil => intro sec det acc; exact ⟨sec, det, by simp [routingLoop]⟩
  | cons r rest ih =>
    intro sec det acc
    by_cases hm : allowedMatch allowed r.1
    · obtain ⟨s', d', hrec⟩ := ih sec det (acc ++ [routeLabel r])
      refine ⟨s', d', ?_⟩
      simp [routingLoop, hm, hrec]
    · obtain ⟨s', d', hrec⟩ :=
        ih RoutingSecure.falseVal ("Leak: " ++ routeLabel r) (acc ++ [routeLabel r])
      refine ⟨s', d', ?_⟩
      simp [routingLoop, hm, hrec]

/-- C1 (amended). With the routing check enabled: an empty allow-list yields
detail "Not Configured" and routing reported not secure, whatever the routes;
a non-empty allow-list with no discovered routes yields "No Network"; when
every discovered route's display name (trimmed, case-folded) matches some
allow-list entry (trimmed, case-folded), `local_secure` keeps the truthy value
`(None,)` — routing is reported secure — and the detail is the comma-joined
list of `name (proto)` labels; and when some route mismatches, routing is
reported not secure with detail `Leak: name (proto)` naming the LAST
mismatching route: the loop has no `break`, so later mismatches overwrite
earlier ones (here `m` with everything after it matching). -/
theorem routing_eval_spec :
    (∀ routes, routing_eval true [] routes =
      (RoutingSecure.falseVal, "Not Configured")) ∧
    (∀ allowed, allowed ≠ [] →
      routing_eval true allowed [] = (RoutingSecure.falseVal, "No Network")) ∧
    (∀ allowed routes, allowed ≠ [] → routes ≠ [] →
      (∀ r ∈ routes, allowedMatch allowed r.1 = true) →
      routing_eval true allowed routes =
        (RoutingSecure.initTuple, pyJoin ", " (routes.map routeLabel)) ∧
      RoutingSecure.truthy RoutingSecure.initTuple = true) ∧
    (∀ allowed l1 m l2, allowed ≠ [] → allowedMatch allowed m.1 = false →
      (∀ r ∈ l2, allowedMatch allowed r.1 = true) →
      routing_eval true allowed (l1 ++ m :: l2) =
        (RoutingSecure.falseVal, "Leak: " ++ routeLabel m)) := by
  refine ⟨?_, ?_, ?_, ?_⟩
  · intro routes; rfl
  · intro allowed hne
    have : allowed.isEmpty = false := by
      cases allowed with
      | nil => exact absurd rfl hne
      | cons a as => rfl
    simp [routing_eval, this]
  · intro allowed routes hne hrne hall
    have hae : allowed.isEmpty = false := by
      cases allowed with
      | nil => exact absurd rfl hne
      | cons a as => rfl
    have hre : routes.isEmpty = false := by
      cases routes with
      | nil => exact absurd rfl hrne
      | cons a as => rfl
    have hloop := routingLoop_all_match allowed routes hall
      RoutingSecure.initTuple "OK" []
    have hmapne : routes.map routeLabel ≠ [] := by
      cases routes with
      | nil => exact absurd rfl hrne
      | cons a as => simp
    have hmape : (routes.map routeLabel).isEmpty = false := by
      cases hmap : routes.map routeLabel with
      | nil => exact absurd hmap hmapne
      | cons a as => rfl
    refine ⟨?_, rfl⟩
    simp [routing_eval, hae, hre, hloop, RoutingSecure.truthy, hmape]
  · intro allowed l1 m l2 hne hm hl2
    have hae : allowed.isEmpty = false := by
      cases allowed with
      | nil => exact absurd rfl hne
      | cons a as => rfl
    have hre : (l1 ++ m :: l2).isEmpty = false := by
      cases l1 with
      | nil => rfl
      | cons a as => rfl
    obtain ⟨s', d', h1⟩ :=
      routingLoop_shape allowed l1 RoutingSecure.initTuple "OK" []
    have h2 : routingLoop allowed (l1 ++ m :: l2)
        (RoutingSecure.initTuple, "OK", []) =
        (RoutingSecure.falseVal, "Leak: " ++ routeLabel m,
          ([] ++ l1.map routeLabel) ++ routeLabel m :: l2.map routeLabel) := by
      rw [routingLoop_append, h1]
      have hstep : routingLoop allowed (m :: l2)
          (s', d', [] ++ l1.map routeLabel) =
          routingLoop allowed l2
            (RoutingSecure.falseVal, "Leak: " ++ routeLabel m,
              ([] ++ l1.map routeLabel) ++ [routeLabel m]) := by
        simp [routingLoop, hm]
      rw [hstep, routingLoop_all_match allowed l2 hl2]
      simp
    simp [routing_eval, hae, hre, h2, RoutingSecure.truthy]

/-- C1 counterexample. With allow-list `["tun0"]` and two discovered routes
`eth0 (IPv4)` then `eth1 (IPv6)`, both mismatching, the claim predicts the
short-circuited detail `"Leak: eth0 (IPv4)"` naming the first mismatch; the
loop has no `break`, so the code produces `"Leak: eth1 (IPv6)"` naming the
last one. -/
theorem routing_first_mismatch_cex :
    routing_eval true ["tun0"] [("eth0", "IPv4"), ("eth1", "IPv6")] =
      (RoutingSecure.falseVal, "Leak: eth1 (IPv6)") ∧
    ("Leak: eth1 (IPv6)" : String) ≠ "Leak: eth0 (IPv4)" := by
  exact ⟨rfl, by decide⟩

/-- Witness for the amended C1 theorem at concrete inputs: an all-matching
pair of routes joins into the detail, and a trailing-match leak names the last
mismatch. -/
theorem routing_eval_spec_witness :
    (routing_eval true ["tun0", "wg0"] [("tun0", "IPv4"), ("wg0", "IPv6")] =
      (RoutingSecure.initTuple,
        pyJoin ", " ([(("tun0", "IPv4") : Route), ("wg0", "IPv6")].map routeLabel)) ∧
      RoutingSecure.truthy RoutingSecure.initTuple = true) ∧
    routing_eval true ["tun0"]
        ([("tun0", "IPv4")] ++ ("eth1", "IPv6") :: [("tun0", "IPv6")]) =
      (RoutingSecure.falseVal, "Leak: " ++ routeLabel ("eth1", "IPv6")) := by
  constructor
  · exact routing_eval_spec.2.2.1 ["tun0", "wg0"] [("tun0", "IPv4"), ("wg0", "IPv6")]
      (by decide) (by decide) (by decide)
  · exact routing_eval_spec.2.2.2 ["tun0"] [("tun0", "IPv4")] ("eth1", "IPv6")
      [("tun0", "IPv6")] (by decide) (by decide) (by decide)

/-- C2. Evaluation of the orchestrator tick at the spec's own scenario: all
three checks enabled, routing secure (route `tun0 (IPv4)` on allow-list
`["tun0"]`), public check never yet populated (fresh entries, `is_secure`
still `None`), DNS secure.  The claim requires aggregate status `"scanning"`;
instead the tick raises `AttributeError`, because line 240 of src/core.py
calls `self.dns_checker.has_valid_data()` and `DnsLeakChecker` defines no such
method. -/
theorem check_status_dns_attribute_error :
    check_status
      { routing_check_enabled := true
        valid_interfaces := ["tun0"]
        routes := [("tun0", "IPv4")]
        public_check_enabled := true
        p_state := { ipv4 := IpEntry.init, ipv6 := IpEntry.init, is_secure := none }
        dns_check_enabled := true
        d_is_secure := some true } =
      Except.error
        "AttributeError: 'DnsLeakChecker' object has no attribute 'has_valid_data'" := by
  rfl

/-- C8. `VPNChecker` (src/core.py) defines no `force_checks` method, so the
call `self.checker.force_checks()` at src/main.py line 113 raises
`AttributeError`: the force-recheck operation the claim describes does not
exist on the core, and the per-check timestamps `last_public_check` /
`last_dns_check` are never cleared by it. -/
theorem force_checks_attribute_error :
    py_getattr_call VPNChecker.methods "force_checks" =
      Except.error "AttributeError: force_checks" ∧
    VPNChecker.methods.contains "force_checks" = false := by
  exact ⟨rfl, by decide⟩

/-- A non-empty needle never occurs in the empty string. -/
theorem pyIn_empty_hay (needle : String) (h : pyIn needle "" = true) :
    needle = "" := by
  obtain ⟨l⟩ := needle
  cases l with
  | nil => rfl
  | cons a t =>
    simp only [pyIn, listContains, listStarts] at h
    exact absurd h (by decide)

/-- C3. Under the `combined` strategy, for an entry with a detected IP and
present country/ISP strings, and with both a home country and a home ISP
configured (non-empty after the code's normalization), the entry is judged
not safe iff the current country equals the configured home country
case-insensitively AND the current ISP contains the configured home-ISP
substring case-insensitively. -/
theorem combined_strategy_iff (raw_country raw_isp : String) (entry : IpEntry)
    (ip c i : String)
    (hip : entry.ip = some ip) (hipne : ip ≠ "")
    (hc : entry.country = some c) (hi : entry.isp = some i)
    (htc : pyStrip (pyUpper raw_country) ≠ "")
    (hhi : pyStrip (pyLower raw_isp) ≠ "") :
    eval_entry "combined" raw_country raw_isp none none entry = false ↔
      (pyUpper c = pyStrip (pyUpper raw_country) ∧
        pyIn (pyStrip (pyLower raw_isp)) (pyLower i) = true) := by
  have htr : pyTruthyStr entry.ip = true := by
    rw [hip]; simp [pyTruthyStr, hipne]
  have e1 : (("combined" : String) == "country") = false := by decide
  have e2 : (("combined" : String) == "isp") = false := by decide
  have e3 : (("combined" : String) == "combined") = true := by decide
  simp only [eval_entry, is_entry_safe, htr, Bool.not_true, Bool.false_eq_true,
    if_false, e1, e2, e3, if_true, hc, hi]
  simp [pyTruthyStr, htc, hhi]
  constructor
  · rintro ⟨⟨_, h1⟩, _, h2⟩
    exact ⟨h1, h2⟩
  · rintro ⟨h1, h2⟩
    refine ⟨⟨?_, h1⟩, ?_, h2⟩
    · intro hce
      rw [hce] at h1
      exact htc (h1 ▸ rfl)
    · intro hie
      rw [hie] at h2
      exact hhi (pyIn_empty_hay _ h2)

/-- Witness for C3 at the spec's example: home country `"DE"`, home ISP
`"telekom"`; an entry from Deutsche Telekom in DE is judged not safe, and one
from Comcast in DE stays safe. -/
theorem combined_strategy_iff_witness :
    eval_entry "combined" "DE" "telekom" none none
      { ip := some "203.0.113.9", country := some "DE",
        isp := some "Deutsche Telekom AG", error := none } = false ∧
    eval_entry "combined" "DE" "telekom" none none
      { ip := some "203.0.113.9", country := some "DE",
        isp := some "Comcast", error := none } = true := by
  constructor
  · exact (combined_strategy_iff "DE" "telekom"
      { ip := some "203.0.113.9", country := some "DE",
        isp := some "Deutsche Telekom AG", error := none }
      "203.0.113.9" "DE" "Deutsche Telekom AG" rfl (by decide) rfl rfl
      (by decide) (by decide)).mpr ⟨by decide, by decide⟩
  · decide

/-- C7. Under the `ip_match` strategy: when DynDNS resolution produced neither
an IPv4 nor an IPv6 address (`none`/`none`, the bare `except: pass` having
swallowed any resolver error), every entry is judged safe, with or without a
detected IP (fail-open); and for an entry with a detected IP, the entry is
judged not safe iff its current public IP equals the resolved IPv4 address or
the resolved IPv6 address. -/
theorem ip_match_rules :
    (∀ target_country home_isp entry,
      is_entry_safe "ip_match" target_country home_isp none none entry = true) ∧
    (∀ target_country home_isp (v4 v6 : Option String) (entry : IpEntry)
        (ip : String), entry.ip = some ip → ip ≠ "" →
      (is_entry_safe "ip_match" target_country home_isp v4 v6 entry = false ↔
        (v4 = some ip ∨ v6 = some ip))) := by
  have e1 : (("ip_match" : String) == "country") = false := by decide
  have e2 : (("ip_match" : String) == "isp") = false := by decide
  have e3 : (("ip_match" : String) == "combined") = false := by decide
  have e4 : (("ip_match" : String) == "ip_match") = true := by decide
  constructor
  · intro target_country home_isp entry
    by_cases htr : pyTruthyStr entry.ip = true
    · simp [is_entry_safe, htr, e1, e2, e3, e4, pyTruthyStr]
    · have hf : pyTruthyStr entry.ip = false := by
        revert htr; cases pyTruthyStr entry.ip <;> simp
      simp [is_entry_safe, hf]
  · intro target_country home_isp v4 v6 entry ip hip hipne
    have htr : pyTruthyStr (some ip) = true := by simp [pyTruthyStr, hipne]
    simp only [is_entry_safe, hip, htr, Bool.not_true, Bool.false_eq_true,
      if_false, e1, e2, e3, e4, if_true, Bool.not_eq_false', Bool.or_eq_true,
      Bool.and_eq_true, beq_iff_eq]
    constructor
    · rintro (⟨_, h4⟩ | ⟨_, h6⟩)
      · exact Or.inl h4.symm
      · exact Or.inr h6.symm
    · rintro (h4 | h6)
      · subst h4
        exact Or.inl ⟨htr, rfl⟩
      · subst h6
        exact Or.inr ⟨htr, rfl⟩

/-- Witness for C7 at concrete inputs: with no resolved home address every
entry is safe; with a resolved IPv4 equal to the current public IP the entry
is judged not safe. -/
theorem ip_match_rules_witness :
    is_entry_safe "ip_match" "" "" none none
      { ip := some "85.1.2.3", country := some "??",
        isp := some "Unknown", error := none } = true ∧
    is_entry_safe "ip_match" "" "" (some "85.1.2.3") none
      { ip := some "85.1.2.3", country := some "??",
        isp := some "Unknown", error := none } = false := by
  constructor
  · exact ip_match_rules.1 "" ""
      { ip := some "85.1.2.3", country := some "??",
        isp := some "Unknown", error := none }
  · exact (ip_match_rules.2 "" "" (some "85.1.2.3") none
      { ip := some "85.1.2.3", country := some "??",
        isp := some "Unknown", error := none }
      "85.1.2.3" rfl (by decide)).mpr (Or.inl rfl)

/-- C4. Smart provider cache reuse: when the IP-only detection succeeds, the
detected IP equals the cached snapshot's IP, and the snapshot carries no
error, `fetch_details` returns success with exactly the cached country and ISP
fields and consults zero geolocation services; and when the IP-only detection
fails, that failure dict is returned unchanged (also with zero geolocation
lookups). -/
theorem smart_cache_reuse :
    (∀ (ip_result : FetchResult) (s : String) (cd : IpEntry)
        (geo : List FetchResult),
      ip_result.success = true → ip_result.ip = some s → s ≠ "" →
      pyTruthyStr cd.error = false →
      SmartProvider.fetch_details ip_result (some s) (some cd) geo =
        ({ success := true, ip := some s, country := cd.country,
           isp := cd.isp, error := none }, 0)) ∧
    (∀ ip_result cached_ip cached_details geo, ip_result.success = false →
      SmartProvider.fetch_details ip_result cached_ip cached_details geo =
        (ip_result, 0)) := by
  constructor
  · intro ip_result s cd geo hs hip hsne herr
    have hts : pyTruthyStr (some s) = true := by simp [pyTruthyStr, hsne]
    simp [SmartProvider.fetch_details, hs, hip, hts, herr]
  · intro ip_result cached_ip cached_details geo hs
    simp [SmartProvider.fetch_details, hs]

/-- Witness for C4 at a concrete input: unchanged IP `198.51.100.7` with an
error-free cached snapshot returns the cached geo fields and consults no
geolocation service. -/
theorem smart_cache_reuse_witness :
    SmartProvider.fetch_details
      { success := true, ip := some "198.51.100.7", country := some "??",
        isp := some "Unknown", error := none }
      (some "198.51.100.7")
      (some { ip := some "198.51.100.7", country := some "US",
              isp := some "ExampleNet", error := none })
      [{ success := false, error := some "HTTP 429" }] =
      ({ success := true, ip := some "198.51.100.7", country := some "US",
         isp := some "ExampleNet", error := none }, 0) := by
  exact smart_cache_reuse.1
    { success := true, ip := some "198.51.100.7", country := some "??",
      isp := some "Unknown", error := none }
    "198.51.100.7"
    { ip := some "198.51.100.7", country := some "US",
      isp := some "ExampleNet", error := none }
    [{ success := false, error := some "HTTP 429" }]
    rfl rfl (by decide) rfl

/-- When every geolocation service fails, the fallback walk consults all of
them and returns the partial success of src/providers.py lines 275-281. -/
theorem smartGeoWalk_all_fail (geo : List FetchResult) :
    ∀ (le : Option String) (n : Nat) (det : Option String),
      (∀ r ∈ geo, r.success = false) →
      ∃ m, smartGeoWalk geo le n det =
        ({ success := true, ip := det, country := some "??",
           isp := some "Unknown (Geo Lookup Failed)",
           error := some ("Geo Failed: " ++ m) }, n + geo.length) := by
  induction geo with
  | nil =>
    intro le n det _
    exact ⟨pyShowOpt le, by simp [smartGeoWalk]⟩
  | cons r rest ih =>
    intro le n det h
    have hr : r.success = false := h r (List.mem_cons_self _ _)
    obtain ⟨m, hm⟩ :=
      ih r.error (n + 1) det (fun x hx => h x (List.mem_cons_of_mem _ hx))
    refine ⟨m, ?_⟩
    have hlen : n + 1 + rest.length = n + (rest.length + 1) := by omega
    simp [smartGeoWalk, hr, hm, hlen]

/-- C5 (amended). When the IP-only detection succeeds but every geolocation
service in the ordered fallback list fails, the result is still a success
carrying the detected IP, with country `"??"`, ISP
`"Unknown (Geo Lookup Failed)"`, and the non-fatal advisory error
`"Geo Failed: ..."`, after consulting every service; in contrast, when no IP
could be detected at all, the returned result is a hard failure
(`success = False`). -/
theorem smart_geo_all_fail :
    (∀ (ip_result : FetchResult) (s : String) (geo : List FetchResult),
      ip_result.success = true → ip_result.ip = some s →
      (∀ r ∈ geo, r.success = false) →
      (SmartProvider.fetch_details ip_result none none geo).1.success = true ∧
      (SmartProvider.fetch_details ip_result none none geo).1.ip = some s ∧
      (SmartProvider.fetch_details ip_result none none geo).1.country =
        some "??" ∧
      (SmartProvider.fetch_details ip_result none none geo).1.isp =
        some "Unknown (Geo Lookup Failed)" ∧
      (∃ m, (SmartProvider.fetch_details ip_result none none geo).1.error =
        some ("Geo Failed: " ++ m)) ∧
      (SmartProvider.fetch_details ip_result none none geo).2 = geo.length) ∧
    (∀ (ip_result : FetchResult) (geo : List FetchResult),
      ip_result.success = false →
      (SmartProvider.fetch_details ip_result none none geo).1.success =
        false) := by
  constructor
  · intro ip_result s geo hs hip hall
    obtain ⟨m, hm⟩ :=
      smartGeoWalk_all_fail geo (some "No providers available") 0
        ip_result.ip hall
    have hfd : SmartProvider.fetch_details ip_result none none geo =
        smartGeoWalk geo (some "No providers available") 0 ip_result.ip := by
      simp [SmartProvider.fetch_details, hs]
    rw [hfd, hm]
    refine ⟨rfl, hip, rfl, rfl, ⟨m, rfl⟩, by simp⟩
  · intro ip_result geo hs
    simp [SmartProvider.fetch_details, hs]

/-- C5 counterexample. With a detected IP and all three geolocation services
failing, the returned ISP field is `"Unknown (Geo Lookup Failed)"`, not the
`"Unknown"` the claim states. -/
theorem smart_geo_isp_label_cex :
    (SmartProvider.fetch_details
      { success := true, ip := some "203.0.113.5", country := some "??",
        isp := some "Unknown", error := none } none none
      [{ success := false, error := some "FreeIPAPI HTTP 429" },
       { success := false, error := some "ipapi.co HTTP 500" },
       { success := false, error := some "ip-api.com HTTP 503" }]).1.isp =
      some "Unknown (Geo Lookup Failed)" ∧
    (some "Unknown (Geo Lookup Failed)" : Option String) ≠ some "Unknown" := by
  exact ⟨rfl, by decide⟩

/-- Witness for the amended C5 theorem at a concrete input: two failing
services are both consulted and the partial success carries the detected IP
and the advisory geo-failure labels. -/
theorem smart_geo_all_fail_witness :
    (SmartProvider.fetch_details
      { success := true, ip := some "198.51.100.23", country := some "??",
        isp := some "Unknown", error := none } none none
      [{ success := false, error := some "HTTP 429" },
       { success := false, error := none }]).1.isp =
      some "Unknown (Geo Lookup Failed)" ∧
    (SmartProvider.fetch_details
      { success := true, ip := some "198.51.100.23", country := some "??",
        isp := some "Unknown", error := none } none none
      [{ success := false, error := some "HTTP 429" },
       { success := false, error := none }]).2 = 2 := by
  have h := smart_geo_all_fail.1
    { success := true, ip := some "198.51.100.23", country := some "??",
      isp := some "Unknown", error := none }
    "198.51.100.23"
    [{ success := false, error := some "HTTP 429" },
     { success := false, error := none }]
    rfl rfl (by decide)
  exact ⟨h.2.2.2.1, h.2.2.2.2.2⟩

/-- C6. For a completed DNS leak test run with `dns_alert_on_home_isp`
enabled: when the configured `home_isp` is empty after the code's
normalization (`lower().strip()`), the published `is_secure` is `True`
whatever servers were detected; when it is non-empty, the published
`is_secure` is `False` iff some detected server's ASN/organization string
contains the home-ISP substring case-insensitively. -/
theorem dns_home_isp_rules :
    (∀ (st : DnsState) (home_raw : String) (servers : List DnsServer),
      pyStrip (pyLower home_raw) = "" →
      (DnsLeakChecker.perform_check ⟨true, home_raw⟩ st
        (.completed servers)).is_secure = some true) ∧
    (∀ (st : DnsState) (home_raw : String) (servers : List DnsServer),
      pyStrip (pyLower home_raw) ≠ "" →
      ((DnsLeakChecker.perform_check ⟨true, home_raw⟩ st
          (.completed servers)).is_secure = some false ↔
        ∃ srv ∈ servers,
          pyIn (pyStrip (pyLower home_raw)) (pyLower srv.asn) = true)) := by
  constructor
  · intro st home_raw servers h
    simp [DnsLeakChecker.perform_check, dns_analyze, h]
  · intro st home_raw servers h
    simp [DnsLeakChecker.perform_check, dns_analyze, h, List.any_eq_true]

/-- Witness for C6 at concrete inputs: a home ISP that trims to empty keeps
the run safe even with a home-ISP DNS server detected; the configured
`"Telekom"` flags that same server. -/
theorem dns_home_isp_rules_witness :
    (DnsLeakChecker.perform_check ⟨true, " "⟩ DnsState.init
      (.completed
        [⟨some "192.0.2.53", some "Germany", "AS3320 Deutsche Telekom AG"⟩])
      ).is_secure = some true ∧
    (DnsLeakChecker.perform_check ⟨true, "Telekom"⟩ DnsState.init
      (.completed
        [⟨some "192.0.2.53", some "Germany", "AS3320 Deutsche Telekom AG"⟩])
      ).is_secure = some false := by
  constructor
  · exact dns_home_isp_rules.1 DnsState.init " "
      [⟨some "192.0.2.53", some "Germany", "AS3320 Deutsche Telekom AG"⟩]
      (by decide)
  · exact (dns_home_isp_rules.2 DnsState.init "Telekom"
      [⟨some "192.0.2.53", some "Germany", "AS3320 Deutsche Telekom AG"⟩]
      (by decide)).mpr
      ⟨⟨some "192.0.2.53", some "Germany", "AS3320 Deutsche Telekom AG"⟩,
        by simp, by decide⟩

/-- C10. When a DNS leak test run fails with an exception, only the `error`
field of `last_result` is assigned; `servers`, `count` and `is_secure` keep
their previous values.  Consequently, starting from the initial state, any
sequence of failing runs leaves `is_secure` at `None`: it first becomes
`True`/`False` only on a run that completes its analysis. -/
theorem dns_failure_preserves_state :
    (∀ (cfg : DnsCfg) (st : DnsState) (msg : String),
      DnsLeakChecker.perform_check cfg st (.failure msg) =
        { servers := st.servers, count := st.count,
          is_secure := st.is_secure, error := some msg }) ∧
    (∀ (cfg : DnsCfg) (msgs : List String),
      (msgs.foldl
        (fun s m => DnsLeakChecker.perform_check cfg s (.failure m))
        DnsState.init).is_secure = none) := by
  constructor
  · intro cfg st msg; rfl
  · intro cfg msgs
    have hgen : ∀ st : DnsState,
        (msgs.foldl
          (fun s m => DnsLeakChecker.perform_check cfg s (.failure m))
          st).is_secure = st.is_secure := by
      induction msgs with
      | nil => intro st; rfl
      | cons m rest ih =>
        intro st
        simpa [List.foldl, DnsLeakChecker.perform_check] using
          ih { st with error := some m }
    exact hgen DnsState.init

/-- C9 counterexample. The schedule in which both triggers run before either
spawned thread executes `is_checking = True` (legal, because the flag is set
inside the spawned thread, not by the trigger) starts two executions, refuting
"two triggers before the first check completes result in exactly one
execution"; no `thread_end` occurs, so neither check has completed. -/
theorem run_check_async_double_trigger_cex :
    (runSchedule [AsyncEvent.trigger, AsyncEvent.trigger]).executions = 2 ∧
    (2 : Nat) ≠ 1 := by
  exact ⟨rfl, by decide⟩

/-- C9 (amended). A trigger that observes the `is_checking` flag set returns
without starting anything (triggering is idempotent while the flag is set);
hence two triggers start exactly one execution provided the first spawned
check has executed `is_checking = True` before the second trigger reads the
flag.  Without that ordering two executions are possible (see the
counterexample): the flag is written inside the spawned thread without
synchronization. -/
theorem run_check_async_flag_guard :
    (∀ s : AsyncCheckerState, s.is_checking = true →
      run_check_async_step s AsyncEvent.trigger = s) ∧
    (runSchedule
      [AsyncEvent.trigger, AsyncEvent.thread_begin,
        AsyncEvent.trigger]).executions = 1 := by
  constructor
  · intro s h
    simp [run_check_async_step, h]
  · rfl

/-- Witness for the amended C9 theorem: a trigger on a concrete state with the
flag set leaves the state unchanged. -/
theorem run_check_async_flag_guard_witness :
    run_check_async_step ⟨true, 0, 1⟩ AsyncEvent.trigger = ⟨true, 0, 1⟩ := by
  exact run_check_async_flag_guard.1 ⟨true, 0, 1⟩ rfl
